import Mathlib

/-!
A shallow embedding of `src/daisy/scheduler.py` (the scheduler nucleus of the
daisy repository) and proofs checking the natural-language specification
against it.

The repository's `src/` contains only `scheduler.py`.  The collaborating
modules (`block.py`, `task.py`, `dependency_graph.py`, `ready_surface.py`) are
not part of `src/`; the definitions below that stand for them are modelled
from the specification and carry a doc comment starting with
`Modelled from the spec:`.  Everything else is translated from
`src/daisy/scheduler.py` directly; line references below point into that file.

Python conventions are embedded as follows: machine-level exceptions
(`KeyError` from `dict[...]`/`set.remove`, `IndexError` from
`deque.popleft()`, `AttributeError`, the explicit `RuntimeError`,
`NotImplementedError` and `AssertionError` raises) become `Except PyErr`;
Python `dict`s whose iteration order matters become association lists with
insert-or-update semantics (`aset`) and `defaultdict` access-inserts become
`atouch`; Python `set`s become duplicate-free lists; Python `int`s become
`Int` (counts may go negative, nothing clamps them).
-/

set_option maxRecDepth 4000

namespace Daisy

/-- Modelled from the spec: the `BlockStatus` enumeration of §6
(`block.py` is not under `src/`). -/
inductive BlockStatus where
  | created
  | ready
  | in_progress
  | success
  | failed
  | skipped
  | orphaned
deriving DecidableEq, Repr

/-- Modelled from the spec: a `Block` value object (§3): `block_id`,
`task_id`, and a mutable `status` (`block.py` is not under `src/`).
The scheduler reads exactly these three fields. -/
structure Block where
  block_id : Nat
  task_id : Nat
  status : BlockStatus
deriving DecidableEq, Repr

/-- The `(task_id, block_id)` pair identifying a block (§3 Ownership:
the scheduler re-identifies blocks by `(task_id, block_id)`). -/
def Block.key (b : Block) : Nat × Nat := (b.task_id, b.block_id)

/-- Modelled from the spec: block equality used by the precheck memo
(§4.4.4: "identity or equality on `(task_id, block_id)`").
`block.py` is not under `src/`, so `Block.__eq__` is taken from the
spec's words. -/
def Block.sameId (a b : Block) : Bool :=
  a.task_id == b.task_id && a.block_id == b.block_id

/-- Modelled from the spec: a `Task` (§3, §6): `task_id`, non-negative
`max_retries`, optional `check_function` which may raise (`task.py` is not
under `src/`).  The `requires()` closure is assumed to be already taken:
the scheduler is constructed from the full task list (see `mkScheduler`). -/
structure Task where
  task_id : Nat
  max_retries : Nat
  check_function : Option (Block → Except Unit Bool)

/-- Errors: Python exceptions that `scheduler.py` can raise
(`KeyError`, `IndexError`, `AttributeError`, `RuntimeError`,
`NotImplementedError`, `AssertionError`), the spec's `InvariantError`
raised by the spec-modelled ready surface, and `nonTermination`, a
modelling artefact for the skip-path recursion fuel in `acquire_block`
(each recursive call is preceded by a successful `release_block`, which
strictly shrinks the finite processing set, so the fuel used by
`acquire_block` can never actually run out). -/
inductive PyErr where
  | keyError
  | indexError
  | attributeError
  | runtimeError
  | notImplementedError
  | assertionError
  | invariantError
  | nonTermination
deriving DecidableEq, Repr

/-- `TaskState` (scheduler.py lines 15–61): scalar per-task counts.
`pending_count` is derived, never stored (lines 28–38). -/
structure TaskState where
  started : Bool
  total_block_count : Int
  ready_count : Int
  processing_count : Int
  completed_count : Int
  failed_count : Int
  orphaned_count : Int
deriving DecidableEq, Repr

/-- `TaskState.__init__`: everything zero, `started = False`. -/
def TaskState.init : TaskState :=
  { started := false, total_block_count := 0, ready_count := 0,
    processing_count := 0, completed_count := 0, failed_count := 0,
    orphaned_count := 0 }

/-- `TaskState.pending_count` (lines 28–38): derived as total minus the
stored categories. -/
def TaskState.pending_count (t : TaskState) : Int :=
  t.total_block_count -
    (t.ready_count + t.completed_count + t.failed_count +
      t.orphaned_count + t.processing_count)

/-- `TaskState.is_done` (lines 40–46). -/
def TaskState.is_done (t : TaskState) : Bool :=
  (t.total_block_count - t.completed_count - t.failed_count -
    t.orphaned_count) == 0

/-- `TaskBlocks` (lines 64–68): per-task ready queue (deque), in-flight
block-id set, and retry counters (`defaultdict(int)`, embedded as a total
function). -/
structure TaskBlocks where
  ready_queue : List Block
  processing_blocks : List Nat
  block_retries : Nat → Nat

/-- `TaskBlocks.__init__`: empty queue, empty set, all-zero counters. -/
def TaskBlocks.init : TaskBlocks :=
  { ready_queue := [], processing_blocks := [], block_retries := fun _ => 0 }

/-! ### Association lists for Python dicts

Python `dict`s preserve insertion order; assignment updates in place or
appends a fresh key at the end.  `defaultdict` additionally inserts the
default on a missing read. -/

/-- Dict lookup. -/
def alook {α : Type} : List (Nat × α) → Nat → Option α
  | [], _ => none
  | (k', v') :: rest, k => if k = k' then some v' else alook rest k

/-- Dict assignment: update in place, or append a fresh key. -/
def aset {α : Type} : List (Nat × α) → Nat → α → List (Nat × α)
  | [], k, v => [(k, v)]
  | (k', v') :: rest, k, v =>
    if k = k' then (k, v) :: rest else (k', v') :: aset rest k v

/-- `defaultdict(TaskState)` read: inserts a fresh `TaskState` on a miss. -/
def atouch (m : List (Nat × TaskState)) (k : Nat) : List (Nat × TaskState) :=
  match alook m k with
  | some _ => m
  | none => m ++ [(k, TaskState.init)]

/-- The value `task_states[k]` evaluates to (fresh `TaskState` on a miss,
as `defaultdict` would insert). -/
def getTS (m : List (Nat × TaskState)) (k : Nat) : TaskState :=
  (alook m k).getD TaskState.init

/-- `task_states[k].field = ...` — read-modify-write of one entry
(inserting the default first when the key is missing, as `defaultdict`
does). -/
def modTS (m : List (Nat × TaskState)) (k : Nat) (f : TaskState → TaskState) :
    List (Nat × TaskState) :=
  aset m k (f (getTS m k))

/-- `task_blocks` is a `defaultdict(TaskBlocks)`; since it is never
iterated by the source, it is embedded as a total function, and this is
the pointwise update of one entry. -/
def updTB (m : Nat → TaskBlocks) (k : Nat) (f : TaskBlocks → TaskBlocks) :
    Nat → TaskBlocks :=
  fun u => if u = k then f (m u) else m u

/-- Python `set.add` on a duplicate-free list. -/
def insNat (x : Nat) (l : List Nat) : List Nat :=
  if l.contains x then l else l ++ [x]

/-- Python `set.add` for `(task_id, block_id)` keys. -/
def insBid (x : Nat × Nat) (l : List (Nat × Nat)) : List (Nat × Nat) :=
  if l.contains x then l else l ++ [x]

/-- Modelled from the spec: the `DependencyGraph` interface (§3, §4.1;
`dependency_graph.py` is not under `src/`).  `all_blocks` materializes
the finite block universe; `upstream`/`downstream` are the per-block edge
maps (identified by `(task_id, block_id)`, insensitive to the mutable
`status` field); `num_blocks` the exact per-task block count; `roots` the
per-task `(count, lazy root sequence)` mapping, holding only tasks that
have roots. -/
structure DependencyGraph where
  all_blocks : List Block
  upstream : Block → List Block
  downstream : Block → List Block
  num_blocks : Nat → Nat
  roots : List (Nat × (Nat × List Block))

/-- Modelled from the spec: one step of orphan propagation (§4.2: "any
downstream that has at least one upstream in the failed-or-orphaned set
is itself orphaned"); `n` bounds the iteration — the fixpoint is reached
within `|all_blocks|` steps. -/
def orphanIter (g : DependencyGraph) (F : List (Nat × Nat)) :
    Nat → List (Nat × Nat)
  | 0 => []
  | n + 1 =>
    let prev := orphanIter g F n
    g.all_blocks.foldl
      (fun acc d =>
        if (g.upstream d).any (fun u => F.contains u.key || acc.contains u.key)
        then insBid d.key acc else acc)
      prev

/-- Modelled from the spec: the transitive orphan set of a failed set
(§4.2 Invariants). -/
def orphanSet (g : DependencyGraph) (F : List (Nat × Nat)) :
    List (Nat × Nat) :=
  orphanIter g F (g.all_blocks.length + 1)

/-- Modelled from the spec: `ReadySurface.mark_success` (§4.2;
`ready_surface.py` is not under `src/`): records the block as satisfied
and returns the downstream blocks whose unsatisfied-upstream count just
reached zero; a block previously marked failed or orphaned must not be
marked successful (`InvariantError`). -/
def mark_success (g : DependencyGraph) (failed completed : List (Nat × Nat))
    (b : Block) : Except PyErr (List (Nat × Nat) × List Block) :=
  if failed.contains b.key || (orphanSet g failed).contains b.key then
    .error .invariantError
  else
    let completed' := insBid b.key completed
    let newly := (g.downstream b).filter (fun d =>
      ((g.upstream d).all (fun u => completed'.contains u.key)) &&
      !((g.upstream d).all (fun u => completed.contains u.key)))
    .ok (completed', newly)

/-- Modelled from the spec: `ReadySurface.mark_failure` (§4.2): records
the block as failed and returns the number of downstream blocks that
become orphaned as a result.  With `count_all_orphans = false` each newly
orphaned block is counted once (blocks already orphaned or failed are
not re-counted); with `count_all_orphans = true` every block orphaned by
this particular failure is counted, even if an earlier failure had
already orphaned it ("once per failed upstream it depended on", §4.2,
scenario S4). -/
def mark_failure (g : DependencyGraph) (failed : List (Nat × Nat))
    (b : Block) (count_all_orphans : Bool) : List (Nat × Nat) × Int :=
  let failed' := insBid b.key failed
  let counted :=
    if count_all_orphans then
      (orphanSet g [b.key]).filter (fun k => !(failed'.contains k))
    else
      (orphanSet g failed').filter (fun k =>
        !(failed'.contains k) && !((orphanSet g failed).contains k))
  (failed', (counted.length : Int))

/-- The `Scheduler` state (lines 71–108).  `dependency_graph` and the
ready-surface sets stand for the external collaborators; `checkCalls` is
ghost instrumentation counting actual `check_function` invocations (used
to state the precheck-memo claim), it influences nothing.  The source
also initializes `completed_surface`, `failed_surface` and
`block_statuses` (lines 103–105) which no method ever reads or writes
again; those dead fields are omitted. -/
structure Scheduler where
  dependency_graph : DependencyGraph
  task_map : List (Nat × Task)
  task_states : List (Nat × TaskState)
  task_blocks : Nat → TaskBlocks
  root_tasks : List (Nat × (Nat × List Block))
  count_all_orphans : Bool
  rsCompleted : List (Nat × Nat)
  rsFailed : List (Nat × Nat)
  last_prechecked : Nat → Option (Block × Bool)
  checkCalls : Nat

/-- `Scheduler.__init_task` (lines 110–123) for one task: record it in
`task_map`, set `total_block_count` from the graph, and set `ready_count`
to the root count when the task has roots.  The recursion over
`task.requires()` only discovers transitively-required tasks; the task
list handed to `mkScheduler` is assumed closed under `requires()` (§4.4.1),
so each task is processed once, deduplicated through `task_map` exactly as
in the source. -/
def init_task (s : Scheduler) (t : Task) : Scheduler :=
  match alook s.task_map t.task_id with
  | some _ => s
  | none =>
    let ts0 := getTS s.task_states t.task_id
    let ts1 := { ts0 with
      total_block_count := (s.dependency_graph.num_blocks t.task_id : Int) }
    let ts2 :=
      match alook s.root_tasks t.task_id with
      | some (n, _) => { ts1 with ready_count := (n : Int) }
      | none => ts1
    { s with task_map := s.task_map ++ [(t.task_id, t)],
             task_states := aset s.task_states t.task_id ts2 }

/-- `Scheduler.__init__` (lines 87–108): the dependency graph is built
externally (its constructor is not under `src/`), so it is a parameter;
`root_tasks` is seeded from `graph.roots()` and every task is initialized. -/
def mkScheduler (g : DependencyGraph) (tasks : List Task)
    (count_all_orphans : Bool) : Scheduler :=
  let base : Scheduler :=
    { dependency_graph := g, task_map := [], task_states := [],
      task_blocks := fun _ => TaskBlocks.init, root_tasks := g.roots,
      count_all_orphans := count_all_orphans, rsCompleted := [],
      rsFailed := [], last_prechecked := fun _ => none, checkCalls := 0 }
  tasks.foldl init_task base

/-- `Scheduler.has_next` (lines 125–144).  The `task_states[task_id]`
read inserts a fresh `TaskState` on a miss (`defaultdict`).  With
`ready_count >= 1` and an empty ready queue, one root is pulled from the
lazy root generator: a missing `root_tasks` entry is an uncaught
`KeyError`; an exhausted generator (`StopIteration`) is re-raised as
`NotImplementedError` (lines 137–140); a root with upstreams trips the
`assert` (lines 132–134). -/
def has_next (s0 : Scheduler) (task_id : Nat) :
    Except PyErr (Scheduler × Bool) :=
  let s := { s0 with task_states := atouch s0.task_states task_id }
  if (getTS s.task_states task_id).ready_count ≥ 1 then
    if (s.task_blocks task_id).ready_queue.length = 0 then
      match alook s.root_tasks task_id with
      | none => .error .keyError
      | some (n, gen) =>
        match gen with
        | [] => .error .notImplementedError
        | next_block :: rest =>
          if (s.dependency_graph.upstream next_block).length = 0 then
            .ok ({ s with
              root_tasks := aset s.root_tasks task_id (n, rest),
              task_blocks := updTB s.task_blocks task_id (fun tb =>
                { tb with ready_queue := tb.ready_queue ++ [next_block] }) },
              true)
          else .error .assertionError
    else .ok (s, true)
  else .ok (s, false)

/-- `Scheduler._get_block` (lines 146–150): pop the head of the ready
queue (`IndexError` on an empty deque), `ready_count -= 1`,
`processing_count += 1`. -/
def get_block (s : Scheduler) (task_id : Nat) :
    Except PyErr (Scheduler × Block) :=
  match (s.task_blocks task_id).ready_queue with
  | [] => .error .indexError
  | block :: rest =>
    .ok ({ s with
      task_blocks := updTB s.task_blocks task_id (fun tb =>
        { tb with ready_queue := rest }),
      task_states := modTS s.task_states task_id (fun ts =>
        { ts with ready_count := ts.ready_count - 1,
                  processing_count := ts.processing_count + 1 }) }, block)

/-- `Scheduler._queue_ready_block` with the default `index=None`
(lines 152–154, 157): append to the tail of the block's own task's ready
queue and increment that task's `ready_count`. -/
def queue_ready_block (s : Scheduler) (b : Block) : Scheduler :=
  { s with
    task_blocks := updTB s.task_blocks b.task_id (fun tb =>
      { tb with ready_queue := tb.ready_queue ++ [b] }),
    task_states := modTS s.task_states b.task_id (fun ts =>
      { ts with ready_count := ts.ready_count + 1 }) }

/-- `Scheduler._queue_ready_block` with an explicit `index`
(lines 152–157).  The `index is not None` branch (line 156) reads
`self.task_blocks[block.task_id].read_queue` — `TaskBlocks` has no
attribute `read_queue` (the field is `ready_queue`, line 66), so this
branch raises `AttributeError` before touching any state. -/
def queue_ready_block_at (s : Scheduler) (b : Block) (index : Option Nat) :
    Except PyErr Scheduler :=
  match index with
  | none => .ok (queue_ready_block s b)
  | some _ => .error .attributeError

/-- One step of the `get_ready_tasks` iteration (lines 159–164): tasks
with `ready_count > 0` are collected; the `task_map[task_id]` lookup is a
plain dict access (`KeyError` if a counted task was never registered). -/
def grtStep (s : Scheduler) (acc : Except PyErr (List Task))
    (p : Nat × TaskState) : Except PyErr (List Task) :=
  match acc with
  | .error e => .error e
  | .ok l =>
    if p.2.ready_count > 0 then
      match alook s.task_map p.1 with
      | some tk => .ok (l ++ [tk])
      | none => .error .keyError
    else .ok l

/-- `Scheduler.get_ready_tasks` (lines 159–164). -/
def get_ready_tasks (s : Scheduler) : Except PyErr (List Task) :=
  s.task_states.foldl (grtStep s) (.ok [])

/-- The body of `Scheduler.precheck`'s miss branch (lines 264–282): call
the task's `check_function` if any, catching every exception (including
the `KeyError` of a missing `task_map` entry, since the lookup sits
inside the `try`) and treating it as `False`; store `(block, result)` in
the memo.  The first component of `res` is the ghost "was
`check_function` actually invoked" bit. -/
def precheckRun (s : Scheduler) (task_id : Nat) (b : Block) :
    Scheduler × Bool :=
  let res : Bool × Bool :=
    match alook s.task_map task_id with
    | none => (false, false)
    | some tk =>
      match tk.check_function with
      | none => (false, false)
      | some f =>
        match f b with
        | .ok v => (true, v)
        | .error _ => (true, false)
  ({ s with
      last_prechecked := fun u =>
        if u = task_id then some (b, res.2) else s.last_prechecked u,
      checkCalls := s.checkCalls + (if res.1 then 1 else 0) }, res.2)

/-- `Scheduler.precheck` (lines 263–284): return the memoized result when
the memo's last block equals the given block, otherwise run the check and
memoize.  `precheck` never raises. -/
def precheck (s : Scheduler) (task_id : Nat) (b : Block) :
    Scheduler × Bool :=
  match s.last_prechecked task_id with
  | some (b0, r) =>
    if b0.sameId b then (s, r) else precheckRun s task_id b
  | none => precheckRun s task_id b

/-- The state produced by a successful `remove_from_processing_blocks`. -/
def removeOk (s : Scheduler) (b : Block) : Scheduler :=
  { s with
    task_blocks := updTB s.task_blocks b.task_id (fun tb =>
      { tb with processing_blocks := tb.processing_blocks.erase b.block_id }),
    task_states := modTS s.task_states b.task_id (fun ts =>
      { ts with processing_count := ts.processing_count - 1 }) }

/-- `Scheduler.remove_from_processing_blocks` (lines 252–254):
`set.remove` raises `KeyError` when the id is not in the set; otherwise
the id is removed and `processing_count` decremented. -/
def remove_from_processing_blocks (s : Scheduler) (b : Block) :
    Except PyErr Scheduler :=
  if (s.task_blocks b.task_id).processing_blocks.contains b.block_id then
    .ok (removeOk s b)
  else .error .keyError

/-- The loop of `Scheduler.update_ready_queue` (lines 256–261): admit
each newly-ready block to its own task's queue and record
`updated_tasks[block.task_id] = task_states[block.task_id]`. -/
def update_ready_queue_go (s : Scheduler) :
    List Block → List (Nat × TaskState) → Scheduler × List (Nat × TaskState)
  | [], acc => (s, acc)
  | rb :: rest, acc =>
    let s' := queue_ready_block s rb
    update_ready_queue_go s' rest
      (aset acc rb.task_id (getTS s'.task_states rb.task_id))

/-- `Scheduler.update_ready_queue` (lines 256–261). -/
def update_ready_queue (s : Scheduler) (ready_blocks : List Block) :
    Scheduler × List (Nat × TaskState) :=
  update_ready_queue_go s ready_blocks []

/-- The state updates of `release_block`'s SUCCESS branch before
`update_ready_queue` (lines 229–231): record the new completed surface,
`completed_count += 1`. -/
def releaseSuccessState (s : Scheduler) (b : Block)
    (completed' : List (Nat × Nat)) : Scheduler :=
  { s with rsCompleted := completed',
           task_states := modTS s.task_states b.task_id (fun ts =>
             { ts with completed_count := ts.completed_count + 1 }) }

/-- The state updates of `release_block`'s terminal-FAILED branch
(lines 239–243): record the failure in the surface, `failed_count += 1`,
`orphaned_count += num_orphans` — all on `block.task_id`'s own
`TaskState`, even though the orphans counted by `mark_failure` are
downstream blocks (generally of other tasks). -/
def releaseFailState (s : Scheduler) (b : Block) : Scheduler :=
  let mf := mark_failure s.dependency_graph s.rsFailed b s.count_all_orphans
  { s with rsFailed := mf.1,
           task_states := modTS s.task_states b.task_id (fun ts =>
             { ts with failed_count := ts.failed_count + 1,
                       orphaned_count := ts.orphaned_count + mf.2 }) }

/-- The state updates of `release_block`'s retry branch (lines 246–247):
re-admit the block to the tail of its ready queue, then increment its
retry counter. -/
def releaseRetryState (s : Scheduler) (b : Block) : Scheduler :=
  let s2 := queue_ready_block s b
  { s2 with task_blocks := updTB s2.task_blocks b.task_id (fun tb =>
      { tb with block_retries := fun id =>
          if id = b.block_id then tb.block_retries id + 1
          else tb.block_retries id }) }

/-- `Scheduler.release_block` (lines 205–250).  The block id is removed
from the processing set first (line 228, may raise `KeyError`); then the
branches dispatch on `block.status`: SUCCESS asks the ready surface and
admits newly-ready blocks (lines 229–233), FAILED either retries or
terminally fails depending on `block_retries` vs `max_retries`
(lines 234–248), and any other status raises `RuntimeError` (lines
249–250). -/
def release_block (s : Scheduler) (b : Block) :
    Except PyErr (Scheduler × List (Nat × TaskState)) :=
  match remove_from_processing_blocks s b with
  | .error e => .error e
  | .ok s1 =>
    if b.status = BlockStatus.success then
      match mark_success s1.dependency_graph s1.rsFailed s1.rsCompleted b with
      | .error e => .error e
      | .ok (completed', new_blocks) =>
        let s2 := releaseSuccessState s1 b completed'
        let r := update_ready_queue s2 new_blocks
        .ok (r.1, r.2)
    else if b.status = BlockStatus.failed then
      match alook s1.task_map b.task_id with
      | none => .error .keyError
      | some tk =>
        if (s1.task_blocks b.task_id).block_retries b.block_id ≥
            tk.max_retries then
          .ok (releaseFailState s1 b, [])
        else
          let s2 := releaseRetryState s1 b
          .ok (s2, [(b.task_id, getTS s2.task_states b.task_id)])
    else .error .runtimeError

/-- The state updates of `acquire_block`'s return branch (lines 195–200):
latch `started` (the source's `started or True`) and add the block id to
the processing set. -/
def acquireRetState (s : Scheduler) (task_id : Nat) (b : Block) : Scheduler :=
  { s with
    task_states := modTS s.task_states task_id (fun ts =>
      { ts with started := true }),
    task_blocks := updTB s.task_blocks task_id (fun tb =>
      { tb with processing_blocks :=
          insNat b.block_id tb.processing_blocks }) }

/-- The body of `Scheduler.acquire_block` (lines 166–203), with explicit
fuel for the skip-path tail call (line 193).  Each recursive call is
preceded by a successful `release_block` on the skipped block, which
removes one id from the finite processing set while the skip path never
adds one, so `processing_blocks.length + 2` fuel can never run out. -/
def acquireGo : Nat → Scheduler → Nat → Except PyErr (Scheduler × Option Block)
  | 0, _, _ => .error .nonTermination
  | Nat.succ fuel, s0, task_id =>
    match has_next s0 task_id with
    | .error e => .error e
    | .ok (s, hn) =>
      if hn then
        match get_block s task_id with
        | .error e => .error e
        | .ok (s, block) =>
          let pc := precheck s task_id block
          if pc.2 then
            let block' := { block with status := BlockStatus.success }
            match release_block pc.1 block' with
            | .error e => .error e
            | .ok (s, _) => acquireGo fuel s task_id
          else
            .ok (acquireRetState pc.1 task_id block, some block)
      else .ok (s, none)

/-- `Scheduler.acquire_block` (lines 166–203). -/
def acquire_block (s : Scheduler) (task_id : Nat) :
    Except PyErr (Scheduler × Option Block) :=
  acquireGo ((s.task_blocks task_id).processing_blocks.length + 2) s task_id

/-! ### Lemmas about the dict embedding -/

theorem alook_aset_self {α : Type} (m : List (Nat × α)) (k : Nat) (v : α) :
    alook (aset m k v) k = some v := by
  induction m with
  | nil => simp [aset, alook]
  | cons hd tl ih =>
    obtain ⟨k', v'⟩ := hd
    by_cases h : k = k'
    · simp [aset, alook, h]
    · simp [aset, alook, h, ih]

theorem alook_aset_ne {α : Type} (m : List (Nat × α)) (k u : Nat) (v : α)
    (h : u ≠ k) : alook (aset m k v) u = alook m u := by
  induction m with
  | nil => simp [aset, alook, h]
  | cons hd tl ih =>
    obtain ⟨k', v'⟩ := hd
    by_cases h2 : k = k'
    · subst h2; simp [aset, alook, h]
    · by_cases h3 : u = k'
      · simp [aset, alook, h2, h3]
      · simp [aset, alook, h2, h3, ih]

theorem alook_append_none {α : Type} (m : List (Nat × α)) (k : Nat) (v : α)
    (h : alook m k = none) : alook (m ++ [(k, v)]) k = some v := by
  induction m with
  | nil => simp [alook]
  | cons hd tl ih =>
    obtain ⟨k', v'⟩ := hd
    by_cases h2 : k = k'
    · simp [alook, h2] at h
    · simp only [List.cons_append, alook, if_neg h2] at h ⊢
      exact ih h

theorem mem_keys_aset {α : Type} (m : List (Nat × α)) (k u : Nat) (v : α) :
    u ∈ (aset m k v).map Prod.fst ↔ u = k ∨ u ∈ m.map Prod.fst := by
  induction m with
  | nil => simp [aset]
  | cons hd tl ih =>
    obtain ⟨k', v'⟩ := hd
    by_cases h : k = k'
    · subst h; simp [aset]
    · simp only [aset, if_neg h, List.map_cons, List.mem_cons, ih]
      tauto

theorem getTS_aset_self (m : List (Nat × TaskState)) (k : Nat) (v : TaskState) :
    getTS (aset m k v) k = v := by
  simp [getTS, alook_aset_self]

theorem getTS_aset_ne (m : List (Nat × TaskState)) (k u : Nat) (v : TaskState)
    (h : u ≠ k) : getTS (aset m k v) u = getTS m u := by
  simp [getTS, alook_aset_ne _ _ _ _ h]

theorem getTS_modTS_self (m : List (Nat × TaskState)) (k : Nat)
    (f : TaskState → TaskState) : getTS (modTS m k f) k = f (getTS m k) := by
  simp [modTS, getTS_aset_self]

theorem getTS_modTS_ne (m : List (Nat × TaskState)) (k u : Nat)
    (f : TaskState → TaskState) (h : u ≠ k) :
    getTS (modTS m k f) u = getTS m u := by
  simp [modTS, getTS_aset_ne _ _ _ _ h]

theorem updTB_self (m : Nat → TaskBlocks) (k : Nat) (f : TaskBlocks → TaskBlocks) :
    updTB m k f k = f (m k) := by
  simp [updTB]

theorem updTB_ne (m : Nat → TaskBlocks) (k u : Nat) (f : TaskBlocks → TaskBlocks)
    (h : u ≠ k) : updTB m k f u = m u := by
  simp [updTB, h]

/-! ### Lemmas about `update_ready_queue` -/

theorem urq_queue (bs : List Block) (s : Scheduler)
    (acc : List (Nat × TaskState)) (u : Nat) :
    (((update_ready_queue_go s bs acc).1).task_blocks u).ready_queue =
      (s.task_blocks u).ready_queue ++ bs.filter (fun nb => nb.task_id == u) := by
  induction bs generalizing s acc with
  | nil => simp [update_ready_queue_go]
  | cons rb rest ih =>
    simp only [update_ready_queue_go, ih]
    by_cases h : u = rb.task_id
    · subst h
      simp [queue_ready_block, updTB_self, List.filter_cons, List.append_assoc]
    · have hne : (rb.task_id == u) = false := by
        simp [Ne.symm h]
      simp [queue_ready_block, updTB_ne _ _ _ _ h, List.filter_cons, hne]

theorem urq_processing (bs : List Block) (s : Scheduler)
    (acc : List (Nat × TaskState)) (u : Nat) :
    (((update_ready_queue_go s bs acc).1).task_blocks u).processing_blocks =
      (s.task_blocks u).processing_blocks := by
  induction bs generalizing s acc with
  | nil => simp [update_ready_queue_go]
  | cons rb rest ih =>
    simp only [update_ready_queue_go, ih]
    by_cases h : u = rb.task_id
    · subst h; simp [queue_ready_block, updTB_self]
    · simp [queue_ready_block, updTB_ne _ _ _ _ h]

theorem urq_ready (bs : List Block) (s : Scheduler)
    (acc : List (Nat × TaskState)) (u : Nat) :
    (getTS ((update_ready_queue_go s bs acc).1).task_states u).ready_count =
      (getTS s.task_states u).ready_count +
        ((bs.filter (fun nb => nb.task_id == u)).length : Int) := by
  induction bs generalizing s acc with
  | nil => simp [update_ready_queue_go]
  | cons rb rest ih =>
    simp only [update_ready_queue_go, ih]
    by_cases h : u = rb.task_id
    · subst h
      simp only [queue_ready_block, getTS_modTS_self, List.filter_cons,
        beq_self_eq_true, if_true, List.length_cons]
      push_cast
      ring
    · have hne : (rb.task_id == u) = false := by
        simp [Ne.symm h]
      simp [queue_ready_block, getTS_modTS_ne _ _ _ _ h, List.filter_cons, hne]

theorem urq_completed (bs : List Block) (s : Scheduler)
    (acc : List (Nat × TaskState)) (u : Nat) :
    (getTS ((update_ready_queue_go s bs acc).1).task_states u).completed_count =
      (getTS s.task_states u).completed_count := by
  induction bs generalizing s acc with
  | nil => simp [update_ready_queue_go]
  | cons rb rest ih =>
    simp only [update_ready_queue_go, ih]
    by_cases h : u = rb.task_id
    · subst h; simp [queue_ready_block, getTS_modTS_self]
    · simp [queue_ready_block, getTS_modTS_ne _ _ _ _ h]

theorem urq_proc_count (bs : List Block) (s : Scheduler)
    (acc : List (Nat × TaskState)) (u : Nat) :
    (getTS ((update_ready_queue_go s bs acc).1).task_states u).processing_count =
      (getTS s.task_states u).processing_count := by
  induction bs generalizing s acc with
  | nil => simp [update_ready_queue_go]
  | cons rb rest ih =>
    simp only [update_ready_queue_go, ih]
    by_cases h : u = rb.task_id
    · subst h; simp [queue_ready_block, getTS_modTS_self]
    · simp [queue_ready_block, getTS_modTS_ne _ _ _ _ h]

theorem alook_append_ne {α : Type} (m : List (Nat × α)) (k u : Nat) (v : α)
    (h : u ≠ k) : alook (m ++ [(k, v)]) u = alook m u := by
  induction m with
  | nil => simp [alook, h]
  | cons hd tl ih =>
    obtain ⟨k', v'⟩ := hd
    by_cases h2 : u = k'
    · simp [alook, h2]
    · simp [alook, h2, ih]

theorem getTS_atouch (m : List (Nat × TaskState)) (k u : Nat) :
    getTS (atouch m k) u = getTS m u := by
  unfold atouch
  cases h : alook m k with
  | some v => rfl
  | none =>
    unfold getTS
    by_cases h2 : u = k
    · subst h2
      rw [alook_append_none m u TaskState.init h, h]
      rfl
    · rw [alook_append_ne m k u TaskState.init h2]

/-! ### Step lemmas about the scheduler operations -/

/-- `has_next` with a positive `ready_count` and a non-empty ready queue:
no root is pulled, the only state change is the `defaultdict` touch. -/
theorem has_next_queue_nonempty (s : Scheduler) (t : Nat)
    (hready : (getTS s.task_states t).ready_count ≥ 1)
    (hq : (s.task_blocks t).ready_queue ≠ []) :
    has_next s t = .ok ({ s with task_states := atouch s.task_states t }, true) := by
  unfold has_next
  simp [getTS_atouch, hready, hq]

/-- `has_next` when `ready_count < 1`: returns `false`, the only state
change is the `defaultdict` touch. -/
theorem has_next_not_ready (s : Scheduler) (t : Nat)
    (hready : ¬ ((getTS s.task_states t).ready_count ≥ 1)) :
    has_next s t = .ok ({ s with task_states := atouch s.task_states t }, false) := by
  unfold has_next
  simp [getTS_atouch, hready]

/-- `_get_block` with a non-empty queue: pops the head, `ready_count -= 1`,
`processing_count += 1`. -/
theorem get_block_cons (s : Scheduler) (t : Nat) (b : Block) (rest : List Block)
    (h : (s.task_blocks t).ready_queue = b :: rest) :
    get_block s t = .ok ({ s with
      task_blocks := updTB s.task_blocks t (fun tb =>
        { tb with ready_queue := rest }),
      task_states := modTS s.task_states t (fun ts =>
        { ts with ready_count := ts.ready_count - 1,
                  processing_count := ts.processing_count + 1 }) }, b) := by
  unfold get_block
  rw [h]

/-- `precheck` on a memo miss runs the check body. -/
theorem precheck_miss (s : Scheduler) (t : Nat) (b : Block)
    (hmiss : ∀ b0 r, s.last_prechecked t = some (b0, r) → b0.sameId b = false) :
    precheck s t b = precheckRun s t b := by
  unfold precheck
  cases hm : s.last_prechecked t with
  | none => rfl
  | some p =>
    obtain ⟨b0, r⟩ := p
    simp [hmiss b0 r hm]

/-- The miss body when `check_function` raises: the exception is caught,
the result is `false`, `(block, false)` is memoized, and the ghost
invocation counter records one call. -/
theorem precheckRun_raises (s : Scheduler) (t : Nat) (b : Block) (tk : Task)
    (f : Block → Except Unit Bool) (e : Unit)
    (htk : alook s.task_map t = some tk)
    (hcf : tk.check_function = some f)
    (hfe : f b = .error e) :
    precheckRun s t b = ({ s with
      last_prechecked := fun u =>
        if u = t then some (b, false) else s.last_prechecked u,
      checkCalls := s.checkCalls + 1 }, false) := by
  unfold precheckRun
  simp [htk, hcf, hfe]

/-- Re-running `precheck` immediately after a miss hits the memo: the
state does not change and the result is the memoized one. -/
theorem precheck_after_run (s : Scheduler) (t : Nat) (b : Block) :
    precheck (precheckRun s t b).1 t b = precheckRun s t b := by
  unfold precheck precheckRun
  simp [Block.sameId]

/-- The ghost invocation counter grows by at most one per `precheckRun`. -/
theorem precheckRun_calls (s : Scheduler) (t : Nat) (b : Block) :
    (precheckRun s t b).1.checkCalls ≤ s.checkCalls + 1 := by
  rcases h1 : alook s.task_map t with _ | tk
  · simp [precheckRun, h1]
  · rcases h2 : tk.check_function with _ | f
    · simp [precheckRun, h1, h2]
    · rcases h3 : f b with e | v
      · simp [precheckRun, h1, h2, h3]
      · simp [precheckRun, h1, h2, h3]

/-- `precheck` on a memo miss whose `check_function` raises: the
exception is caught, the result is `false`, `(block, false)` is stored in
the memo, and nothing propagates. -/
theorem precheck_raises (s : Scheduler) (t : Nat) (b : Block) (tk : Task)
    (f : Block → Except Unit Bool) (e : Unit)
    (hmiss : ∀ b0 r, s.last_prechecked t = some (b0, r) → b0.sameId b = false)
    (htk : alook s.task_map t = some tk)
    (hcf : tk.check_function = some f)
    (hfe : f b = .error e) :
    precheck s t b = ({ s with
      last_prechecked := fun u =>
        if u = t then some (b, false) else s.last_prechecked u,
      checkCalls := s.checkCalls + 1 }, false) := by
  rw [precheck_miss s t b hmiss, precheckRun_raises s t b tk f e htk hcf hfe]

/-- `acquire_block` when `has_next` answers `false`. -/
theorem acquireGo_none (s : Scheduler) {s' : Scheduler} (task_id : Nat)
    (n : Nat) (h : has_next s task_id = .ok (s', false)) :
    acquireGo (n + 1) s task_id = .ok (s', none) := by
  simp [acquireGo, h]

/-- `acquire_block`'s non-skip return: `has_next` true, a block popped,
precheck negative. -/
theorem acquireGo_ret (s : Scheduler) {s1 s2 s3 : Scheduler} (task_id : Nat)
    (b : Block) (n : Nat)
    (h1 : has_next s task_id = .ok (s1, true))
    (h2 : get_block s1 task_id = .ok (s2, b))
    (h3 : precheck s2 task_id b = (s3, false)) :
    acquireGo (n + 1) s task_id = .ok (acquireRetState s3 task_id b, some b) := by
  simp [acquireGo, h1, h2, h3]

theorem urq_keys (bs : List Block) (s : Scheduler)
    (acc : List (Nat × TaskState)) (u : Nat) :
    u ∈ ((update_ready_queue_go s bs acc).2).map Prod.fst ↔
      u ∈ acc.map Prod.fst ∨ u ∈ bs.map Block.task_id := by
  induction bs generalizing s acc with
  | nil => simp [update_ready_queue_go]
  | cons rb rest ih =>
    simp only [update_ready_queue_go, ih, mem_keys_aset, List.map_cons,
      List.mem_cons]
    tauto

/-! ### Concrete configurations used by the counterexamples and witnesses -/

/-- Root block `a0` of task 1, as constructed (status CREATED). -/
def blkA0 : Block := { block_id := 0, task_id := 1, status := .created }

/-- Root block `a1` of task 1. -/
def blkA1 : Block := { block_id := 1, task_id := 1, status := .created }

/-- Root block `a2` of task 1. -/
def blkA2 : Block := { block_id := 2, task_id := 1, status := .created }

/-- Block `b0` of task 2, depending on `a0`. -/
def blkB0 : Block := { block_id := 0, task_id := 2, status := .created }

/-- Block `b1` of task 2, depending on `a0`. -/
def blkB1 : Block := { block_id := 1, task_id := 2, status := .created }

/-- The empty graph. -/
def gMin : DependencyGraph :=
  { all_blocks := [], upstream := fun _ => [], downstream := fun _ => [],
    num_blocks := fun _ => 0, roots := [] }

/-- A scheduler over no tasks at all. -/
def sMin : Scheduler := mkScheduler gMin [] false

/-- Scenario S5 of the spec: task 1 with two root blocks `a0, a1` and a
`check_function` that answers true exactly on `a0`. -/
def gSkip : DependencyGraph :=
  { all_blocks := [blkA0, blkA1], upstream := fun _ => [],
    downstream := fun _ => [],
    num_blocks := fun t => if t = 1 then 2 else 0,
    roots := [(1, (2, [blkA0, blkA1]))] }

/-- `check_function` of scenario S5: true on block 0, false otherwise. -/
def checkSkip : Block → Except Unit Bool := fun b => .ok (b.block_id == 0)

def taskSkip : Task :=
  { task_id := 1, max_retries := 0, check_function := some checkSkip }

/-- The freshly-constructed S5 scheduler. -/
def sSkip : Scheduler := mkScheduler gSkip [taskSkip] false

/-- Scenario for the failure/orphan trace (spec §8 S3, enlarged so task 1
keeps ready roots after the failure): task 1 has three root blocks
`a0, a1, a2`; task 2 has `b0, b1`, each depending on `a0` alone;
`max_retries = 0`; `count_all_orphans = false`. -/
def gFail : DependencyGraph :=
  { all_blocks := [blkA0, blkA1, blkA2, blkB0, blkB1],
    upstream := fun d => if d.task_id = 2 then [blkA0] else [],
    downstream := fun u =>
      if u.task_id = 1 ∧ u.block_id = 0 then [blkB0, blkB1] else [],
    num_blocks := fun t => if t = 1 then 3 else if t = 2 then 2 else 0,
    roots := [(1, (3, [blkA0, blkA1, blkA2]))] }

def taskFailA : Task := { task_id := 1, max_retries := 0, check_function := none }

def taskFailB : Task := { task_id := 2, max_retries := 0, check_function := none }

/-- The freshly-constructed failure-scenario scheduler. -/
def sFail0 : Scheduler := mkScheduler gFail [taskFailA, taskFailB] false

/-- Extract the state component of a successful operation (defaulting on
error; the accompanying theorems prove the operations do succeed, so the
default is never what is extracted). -/
def stOf {α : Type} (r : Except PyErr (Scheduler × α)) (d : Scheduler) :
    Scheduler :=
  match r with
  | .ok (s, _) => s
  | .error _ => d

/-- State after `acquire_block(1)` handed out `a0`. -/
def sFail1 : Scheduler := stOf (acquire_block sFail0 1) sFail0

/-- `a0` as the caller returns it: status set to FAILED. -/
def blkA0f : Block := { blkA0 with status := .failed }

/-- State after `release_block` of the FAILED `a0` (terminal: task 1 has
`max_retries = 0`). -/
def sFail2 : Scheduler := stOf (release_block sFail1 blkA0f) sFail0

/-- State after a further `has_next(1)`. -/
def sFail3 : Scheduler := stOf (has_next sFail2 1) sFail0

/-- State after a further `acquire_block(1)`. -/
def sFail4 : Scheduler := stOf (acquire_block sFail2 1) sFail0

/-! ### The claims -/

/-- **C1** (precheck skip path, scenario S5): the claim states that with
`check_function` true on `a0` and false on `a1`, a single
`acquire_block(1)` returns `a1`, leaves `a0` at SUCCESS with
`completed_count = 1`, and surfaces no exception.  The code does not do
this: on the skip path the block id was never added to
`processing_blocks` (that happens only in the non-skip branch,
line 199), so the `release_block` call of line 192 reaches
`processing_blocks.remove(block.block_id)` (line 253) with the id absent
and raises `KeyError`, which propagates out of `acquire_block`.  This
theorem evaluates the embedded code at exactly the S5 input. -/
theorem C1_skip_path_key_error :
    acquire_block sSkip 1 = .error .keyError := rfl

/-- **C4** (counting invariant): the claim states that every reachable
state satisfies the counting identity with `pending_count ≥ 0`.  The
identity itself is definitional (`pending_count` is derived), but
`pending_count ≥ 0` fails on the code: releasing the FAILED root `a0` of
task 1 adds `mark_failure`'s orphan count — two blocks of task 2 — to
task 1's own `orphaned_count` (line 243), leaving task 1 with
`total = 3, ready = 2, failed = 1, orphaned = 2`, i.e. `pending = -2`.
The exhibited trace is reachable: construction, one `acquire_block(1)`
returning `a0`, one `release_block` of `a0` with status FAILED. -/
theorem C4_pending_goes_negative :
    acquire_block sFail0 1 = .ok (sFail1, some blkA0) ∧
    release_block sFail1 blkA0f = .ok (sFail2, []) ∧
    (getTS sFail2.task_states 1).pending_count = -2 ∧
    (getTS sFail2.task_states 1).pending_count < 0 :=
  ⟨rfl, rfl, rfl, by decide⟩

/-- **C5** (`is_done ⇒ has_next = false` and `acquire_block = None`):
fails on the code.  In the reachable state `sFail2` of the trace of
`C4_pending_goes_negative`, task 1 satisfies `is_done`
(3 − 0 − 1 − 2 = 0, the two orphans of task 2 having been credited to
task 1), yet its `ready_count` is 2, so `has_next(1)` answers true and
`acquire_block(1)` returns block `a1`, not `None`. -/
theorem C5_done_but_still_has_next :
    (getTS sFail2.task_states 1).is_done = true ∧
    has_next sFail2 1 = .ok (sFail3, true) ∧
    acquire_block sFail2 1 = .ok (sFail4, some blkA1) :=
  ⟨rfl, rfl, rfl⟩

/-- **C3**: the claim states that `_queue_ready_block(block, index)` with
a non-None index inserts the block at that position of the task's ready
queue and increments `ready_count`.  The code's index branch (line 156)
reads the non-existent attribute `read_queue` — a typo for `ready_queue`
(line 66) — so for every scheduler state, block and index it raises
`AttributeError` before touching any state. -/
theorem C3_index_attribute_error (s : Scheduler) (b : Block) (i : Nat) :
    queue_ready_block_at s b (some i) = .error .attributeError := rfl

/-- **C2** (retry semantics): a FAILED release of a block whose retry
counter is still below `max_retries` re-admits the block to the tail of
its task's ready queue, increments the counter by one, and returns the
singleton mapping `{task_id: task_state}` (lines 245–248); once the
counter has reached `max_retries` — i.e. on the `(R+1)`-th FAILED
release — the block is terminally failed instead: `failed_count += 1`,
`orphaned_count` grows by the count `mark_failure` returns, the block is
not re-queued, and the mapping is empty (lines 234–244).  The hypotheses
are the caller contract: the block is FAILED, its id is in the processing
set, and its task is registered. -/
theorem C2_retry_semantics (s : Scheduler) (b : Block) (tk : Task)
    (hst : b.status = BlockStatus.failed)
    (hp : (s.task_blocks b.task_id).processing_blocks.contains b.block_id = true)
    (htm : alook s.task_map b.task_id = some tk) :
    ((s.task_blocks b.task_id).block_retries b.block_id < tk.max_retries →
      ∃ s', release_block s b =
          .ok (s', [(b.task_id, getTS s'.task_states b.task_id)]) ∧
        (s'.task_blocks b.task_id).ready_queue =
          (s.task_blocks b.task_id).ready_queue ++ [b] ∧
        (s'.task_blocks b.task_id).block_retries b.block_id =
          (s.task_blocks b.task_id).block_retries b.block_id + 1) ∧
    ((s.task_blocks b.task_id).block_retries b.block_id ≥ tk.max_retries →
      release_block s b = .ok (releaseFailState (removeOk s b) b, []) ∧
      (getTS (releaseFailState (removeOk s b) b).task_states b.task_id).failed_count =
        (getTS s.task_states b.task_id).failed_count + 1 ∧
      (getTS (releaseFailState (removeOk s b) b).task_states b.task_id).orphaned_count =
        (getTS s.task_states b.task_id).orphaned_count +
          (mark_failure s.dependency_graph s.rsFailed b s.count_all_orphans).2 ∧
      ((releaseFailState (removeOk s b) b).task_blocks b.task_id).ready_queue =
        (s.task_blocks b.task_id).ready_queue) := by
  have hrem : remove_from_processing_blocks s b = .ok (removeOk s b) := by
    unfold remove_from_processing_blocks
    rw [if_pos hp]
  have htm' : alook (removeOk s b).task_map b.task_id = some tk := htm
  have hretr : ((removeOk s b).task_blocks b.task_id).block_retries =
      (s.task_blocks b.task_id).block_retries := by
    simp [removeOk, updTB_self]
  constructor
  · intro hlt
    have hcond :
        ¬ (((removeOk s b).task_blocks b.task_id).block_retries b.block_id ≥
          tk.max_retries) := by
      rw [hretr]; omega
    refine ⟨releaseRetryState (removeOk s b) b, ?_, ?_, ?_⟩
    · simp [release_block, hrem, hst, htm', hcond]
    · simp [releaseRetryState, queue_ready_block, removeOk, updTB_self]
    · simp [releaseRetryState, queue_ready_block, removeOk, updTB_self]
  · intro hge
    have hcond :
        (((removeOk s b).task_blocks b.task_id).block_retries b.block_id ≥
          tk.max_retries) := by
      rw [hretr]; omega
    refine ⟨?_, ?_, ?_, ?_⟩
    · simp [release_block, hrem, hst, htm', hcond]
    · simp [releaseFailState, removeOk, getTS_modTS_self]
    · simp [releaseFailState, removeOk, getTS_modTS_self]
    · simp [releaseFailState, removeOk, updTB_self]

/-- Task with `max_retries = 1` for the C2 witness. -/
def tkC2 : Task := { task_id := 1, max_retries := 1, check_function := none }

/-- A FAILED block of task 1 for the C2 witness. -/
def blkC2 : Block := { block_id := 0, task_id := 1, status := .failed }

/-- A scheduler state with `blkC2` in flight for task 1. -/
def sC2 : Scheduler :=
  { dependency_graph := gMin, task_map := [(1, tkC2)],
    task_states :=
      [(1, { TaskState.init with total_block_count := 1, processing_count := 1 })],
    task_blocks := fun t => if t = 1 then
        { ready_queue := [], processing_blocks := [0], block_retries := fun _ => 0 }
      else TaskBlocks.init,
    root_tasks := [], count_all_orphans := false, rsCompleted := [], rsFailed := [],
    last_prechecked := fun _ => none, checkCalls := 0 }

/-- Witness for `C2_retry_semantics`: the retry branch at a concrete
state (retry counter 0 below `max_retries = 1`). -/
theorem C2_retry_semantics_witness :
    ∃ s', release_block sC2 blkC2 =
        .ok (s', [(blkC2.task_id, getTS s'.task_states blkC2.task_id)]) ∧
      (s'.task_blocks blkC2.task_id).ready_queue =
        (sC2.task_blocks blkC2.task_id).ready_queue ++ [blkC2] ∧
      (s'.task_blocks blkC2.task_id).block_retries blkC2.block_id =
        (sC2.task_blocks blkC2.task_id).block_retries blkC2.block_id + 1 :=
  (C2_retry_semantics sC2 blkC2 tkC2 rfl rfl rfl).1 (by decide)

/-- **C6** (release on success): for a SUCCESS release of an in-flight
block, `completed_count` of the block's task grows by exactly one,
`processing_count` drops by one, every newly-ready block reported by
`mark_success` is appended to its own task's ready queue with that task's
`ready_count` incremented accordingly, and the returned mapping's keys
are exactly the task ids of the newly-ready blocks (lines 227–233,
256–261).  `mark_success` is the spec-modelled ready surface; the
hypothesis fixes its (successful) answer. -/
theorem C6_release_success (s : Scheduler) (b : Block)
    (completed' : List (Nat × Nat)) (nbs : List Block)
    (hst : b.status = BlockStatus.success)
    (hp : (s.task_blocks b.task_id).processing_blocks.contains b.block_id = true)
    (hms : mark_success s.dependency_graph s.rsFailed s.rsCompleted b =
      .ok (completed', nbs)) :
    ∃ s' m, release_block s b = .ok (s', m) ∧
      (getTS s'.task_states b.task_id).completed_count =
        (getTS s.task_states b.task_id).completed_count + 1 ∧
      (getTS s'.task_states b.task_id).processing_count =
        (getTS s.task_states b.task_id).processing_count - 1 ∧
      (∀ u, (s'.task_blocks u).ready_queue =
        (s.task_blocks u).ready_queue ++ nbs.filter (fun nb => nb.task_id == u)) ∧
      (∀ u, (getTS s'.task_states u).ready_count =
        (getTS s.task_states u).ready_count +
          ((nbs.filter (fun nb => nb.task_id == u)).length : Int)) ∧
      (∀ u, u ∈ m.map Prod.fst ↔ u ∈ nbs.map Block.task_id) := by
  have hrem : remove_from_processing_blocks s b = .ok (removeOk s b) := by
    unfold remove_from_processing_blocks; rw [if_pos hp]
  have hms' : mark_success (removeOk s b).dependency_graph (removeOk s b).rsFailed
      (removeOk s b).rsCompleted b = .ok (completed', nbs) := hms
  refine ⟨(update_ready_queue (releaseSuccessState (removeOk s b) b completed') nbs).1,
          (update_ready_queue (releaseSuccessState (removeOk s b) b completed') nbs).2,
          ?_, ?_, ?_, ?_, ?_, ?_⟩
  · simp [release_block, hrem, hst, hms']
  · unfold update_ready_queue
    rw [urq_completed]
    simp [releaseSuccessState, removeOk, getTS_modTS_self]
  · unfold update_ready_queue
    rw [urq_proc_count]
    simp [releaseSuccessState, removeOk, getTS_modTS_self]
  · intro u
    unfold update_ready_queue
    rw [urq_queue]
    by_cases h : u = b.task_id
    · subst h; simp [releaseSuccessState, removeOk, updTB_self]
    · simp [releaseSuccessState, removeOk, updTB_ne _ _ _ _ h]
  · intro u
    unfold update_ready_queue
    rw [urq_ready]
    by_cases h : u = b.task_id
    · subst h; simp [releaseSuccessState, removeOk, getTS_modTS_self]
    · simp [releaseSuccessState, removeOk, getTS_modTS_ne _ _ _ _ h]
  · intro u
    unfold update_ready_queue
    rw [urq_keys]
    simp

/-- Graph for the C6 witness: `a0` (task 1) is the sole upstream of `b0`
(task 2). -/
def gC6 : DependencyGraph :=
  { all_blocks := [blkA0, blkB0],
    upstream := fun d => if d.task_id = 2 then [blkA0] else [],
    downstream := fun u => if u.task_id = 1 ∧ u.block_id = 0 then [blkB0] else [],
    num_blocks := fun t => if t = 1 then 1 else if t = 2 then 1 else 0,
    roots := [(1, (1, [blkA0]))] }

def tkC6A : Task := { task_id := 1, max_retries := 0, check_function := none }

def tkC6B : Task := { task_id := 2, max_retries := 0, check_function := none }

/-- `a0` as the caller returns it on success. -/
def blkA0s : Block := { blkA0 with status := .success }

/-- A scheduler state with `a0` in flight for task 1 and `b0` pending. -/
def sC6 : Scheduler :=
  { dependency_graph := gC6, task_map := [(1, tkC6A), (2, tkC6B)],
    task_states :=
      [(1, { TaskState.init with total_block_count := 1, processing_count := 1 }),
       (2, { TaskState.init with total_block_count := 1 })],
    task_blocks := fun t => if t = 1 then
        { ready_queue := [], processing_blocks := [0], block_retries := fun _ => 0 }
      else TaskBlocks.init,
    root_tasks := [], count_all_orphans := false, rsCompleted := [], rsFailed := [],
    last_prechecked := fun _ => none, checkCalls := 0 }

/-- Witness for `C6_release_success`: the SUCCESS release of `a0` makes
`b0` newly ready (`mark_success` answers `[b0]`). -/
theorem C6_release_success_witness :
    ∃ s' m, release_block sC6 blkA0s = .ok (s', m) ∧
      (getTS s'.task_states blkA0s.task_id).completed_count =
        (getTS sC6.task_states blkA0s.task_id).completed_count + 1 ∧
      (getTS s'.task_states blkA0s.task_id).processing_count =
        (getTS sC6.task_states blkA0s.task_id).processing_count - 1 ∧
      (∀ u, (s'.task_blocks u).ready_queue =
        (sC6.task_blocks u).ready_queue ++
          [blkB0].filter (fun nb => nb.task_id == u)) ∧
      (∀ u, (getTS s'.task_states u).ready_count =
        (getTS sC6.task_states u).ready_count +
          (([blkB0].filter (fun nb => nb.task_id == u)).length : Int)) ∧
      (∀ u, u ∈ m.map Prod.fst ↔ u ∈ [blkB0].map Block.task_id) :=
  C6_release_success sC6 blkA0s [(1, 0)] [blkB0] rfl rfl rfl

/-- **C7** (non-terminal release fails fast): for every block whose
status is neither SUCCESS nor FAILED, `release_block` raises and
propagates an error — the explicit `RuntimeError` of lines 249–250 when
the block id is in the processing set, and the `KeyError` of
`set.remove` (line 253, reached first) when it is not; the spec's
taxonomy names both situations `InvariantError` (§7). -/
theorem C7_nonterminal_release_raises (s : Scheduler) (b : Block)
    (h1 : b.status ≠ BlockStatus.success) (h2 : b.status ≠ BlockStatus.failed) :
    release_block s b = .error
      (if (s.task_blocks b.task_id).processing_blocks.contains b.block_id
       then PyErr.runtimeError else PyErr.keyError) := by
  by_cases hp : (s.task_blocks b.task_id).processing_blocks.contains b.block_id = true
  · have hrem : remove_from_processing_blocks s b = .ok (removeOk s b) := by
      unfold remove_from_processing_blocks; rw [if_pos hp]
    have hm : b.block_id ∈ (s.task_blocks b.task_id).processing_blocks := by
      simpa using hp
    simp [release_block, hrem, h1, h2, hm]
  · have hrem : remove_from_processing_blocks s b = .error .keyError := by
      unfold remove_from_processing_blocks; rw [if_neg hp]
    have hm : b.block_id ∉ (s.task_blocks b.task_id).processing_blocks := by
      simpa using hp
    simp [release_block, hrem, hm]

/-- An IN_PROGRESS block for the C7 witness. -/
def blkC7 : Block := { block_id := 0, task_id := 1, status := .in_progress }

/-- Witness for `C7_nonterminal_release_raises` at a concrete state (the
block is not in flight, so the error is the `KeyError` branch). -/
theorem C7_nonterminal_release_raises_witness :
    release_block sMin blkC7 = .error
      (if (sMin.task_blocks blkC7.task_id).processing_blocks.contains blkC7.block_id
       then PyErr.runtimeError else PyErr.keyError) :=
  C7_nonterminal_release_raises sMin blkC7 (by decide) (by decide)

/-- **C8** (precheck exceptions are non-fatal): when the task's
`check_function` raises on the block `acquire_block` is examining (a
memo miss, so the function really is called), the exception is caught
and logged inside `precheck` (lines 266–280), the precheck result is
`false`, the pair `(block, false)` is stored in the memo (line 282), and
`acquire_block` returns the block as if unchecked — no exception reaches
the caller (scenario S6). -/
theorem C8_check_exception (s : Scheduler) (t : Nat) (b : Block)
    (rest : List Block) (tk : Task) (f : Block → Except Unit Bool) (e : Unit)
    (hready : (getTS s.task_states t).ready_count ≥ 1)
    (hq : (s.task_blocks t).ready_queue = b :: rest)
    (hmiss : ∀ b0 r, s.last_prechecked t = some (b0, r) → b0.sameId b = false)
    (htk : alook s.task_map t = some tk)
    (hcf : tk.check_function = some f)
    (hfe : f b = .error e) :
    ∃ s', acquire_block s t = .ok (s', some b) ∧
      s'.last_prechecked t = some (b, false) := by
  have hhn := has_next_queue_nonempty s t hready (by rw [hq]; simp)
  have hgb := get_block_cons { s with task_states := atouch s.task_states t }
    t b rest hq
  have hpc := precheck_raises
    { s with
      task_states := modTS (atouch s.task_states t) t (fun ts =>
        { ts with ready_count := ts.ready_count - 1,
                  processing_count := ts.processing_count + 1 }),
      task_blocks := updTB s.task_blocks t (fun tb =>
        { tb with ready_queue := rest }) }
    t b tk f e (fun b0 r h => hmiss b0 r h) htk hcf hfe
  have hmain := acquireGo_ret s t b
    ((s.task_blocks t).processing_blocks.length + 1) hhn hgb hpc
  exact ⟨_, hmain, by simp [acquireRetState]⟩

/-- A `check_function` that always raises, for the C8 witness. -/
def fRaise : Block → Except Unit Bool := fun _ => .error ()

def tkC8 : Task := { task_id := 1, max_retries := 0, check_function := some fRaise }

def blkC8 : Block := { block_id := 0, task_id := 1, status := .created }

/-- A scheduler state with `blkC8` at the head of task 1's ready queue. -/
def sC8 : Scheduler :=
  { dependency_graph := gMin, task_map := [(1, tkC8)],
    task_states :=
      [(1, { TaskState.init with total_block_count := 1, ready_count := 1 })],
    task_blocks := fun t => if t = 1 then
        { ready_queue := [blkC8], processing_blocks := [], block_retries := fun _ => 0 }
      else TaskBlocks.init,
    root_tasks := [], count_all_orphans := false, rsCompleted := [], rsFailed := [],
    last_prechecked := fun _ => none, checkCalls := 0 }

/-- Witness for `C8_check_exception` at a concrete state whose
`check_function` raises on every block. -/
theorem C8_check_exception_witness :
    ∃ s', acquire_block sC8 1 = .ok (s', some blkC8) ∧
      s'.last_prechecked 1 = some (blkC8, false) :=
  C8_check_exception sC8 1 blkC8 [] tkC8 fRaise () (by decide) rfl
    (fun b0 r h => Option.noConfusion h) rfl rfl rfl

/-- **C9** (precheck memoization): when the memo's last pair for the task
holds a block equal (on `(task_id, block_id)`) to the one examined,
`precheck` returns the memoized result and changes nothing — in
particular `check_function` is not invoked (the ghost `checkCalls`
counter is untouched because the state is untouched); and two
consecutive prechecks of the same block on the same task invoke
`check_function` at most once: the second call returns the first's
result with no further state change, and the whole first call adds at
most one to the invocation counter (lines 263–284).  `acquire_block`
examines blocks only through `precheck`, so two consecutive
`acquire_block` calls examining the same block call `check_function` at
most once. -/
theorem C9_precheck_memo (s : Scheduler) (t : Nat) (b : Block) :
    (∀ b0 r, s.last_prechecked t = some (b0, r) → b0.sameId b = true →
      precheck s t b = (s, r)) ∧
    precheck (precheck s t b).1 t b = precheck s t b ∧
    (precheck s t b).1.checkCalls ≤ s.checkCalls + 1 := by
  refine ⟨?_, ?_, ?_⟩
  · intro b0 r hm he
    simp [precheck, hm, he]
  · rcases hm : s.last_prechecked t with _ | ⟨b0, r⟩
    · rw [precheck_miss s t b
        (by intro b0 r h; rw [hm] at h; exact Option.noConfusion h)]
      exact precheck_after_run s t b
    · by_cases he : b0.sameId b = true
      · have h1 : precheck s t b = (s, r) := by simp [precheck, hm, he]
        rw [h1]
        exact h1
      · rw [precheck_miss s t b (by
          intro b0' r' h
          rw [hm] at h
          simp only [Option.some.injEq, Prod.mk.injEq] at h
          obtain ⟨h3, h4⟩ := h
          subst h3
          simpa using he)]
        exact precheck_after_run s t b
  · rcases hm : s.last_prechecked t with _ | ⟨b0, r⟩
    · rw [precheck_miss s t b
        (by intro b0 r h; rw [hm] at h; exact Option.noConfusion h)]
      exact precheckRun_calls s t b
    · by_cases he : b0.sameId b = true
      · simp [precheck, hm, he]
      · rw [precheck_miss s t b (by
          intro b0' r' h
          rw [hm] at h
          simp only [Option.some.injEq, Prod.mk.injEq] at h
          obtain ⟨h3, h4⟩ := h
          subst h3
          simpa using he)]
        exact precheckRun_calls s t b

def blkC9 : Block := { block_id := 5, task_id := 1, status := .created }

/-- A scheduler state whose task-1 memo holds `(blkC9, true)`. -/
def sC9 : Scheduler :=
  { sMin with last_prechecked := fun t => if t = 1 then some (blkC9, true) else none }

/-- Witness for `C9_precheck_memo`: the memo hit returns the cached
result with the state unchanged. -/
theorem C9_precheck_memo_witness : precheck sC9 1 blkC9 = (sC9, true) :=
  (C9_precheck_memo sC9 1 blkC9).1 blkC9 true rfl rfl

/-- **C10** (unknown task id): for a task id never supplied at
construction, `has_next` answers `false` and `acquire_block` answers
`None`, neither raising; as a side effect the `defaultdict` read of
line 126 appends a fresh all-zero `TaskState` under that id — which
leaves `get_ready_tasks` unchanged, since the fresh state has
`ready_count = 0` (lines 93–95, 125–144, 159–164, 166–203). -/
theorem C10_unknown_task (s : Scheduler) (tid : Nat)
    (h : alook s.task_states tid = none) :
    has_next s tid =
      .ok ({ s with task_states := s.task_states ++ [(tid, TaskState.init)] },
        false) ∧
    acquire_block s tid =
      .ok ({ s with task_states := s.task_states ++ [(tid, TaskState.init)] },
        none) ∧
    get_ready_tasks
        { s with task_states := s.task_states ++ [(tid, TaskState.init)] } =
      get_ready_tasks s := by
  have hts : atouch s.task_states tid = s.task_states ++ [(tid, TaskState.init)] := by
    simp [atouch, h]
  have hready : ¬ ((getTS s.task_states tid).ready_count ≥ 1) := by
    unfold getTS
    rw [h]
    decide
  have hhn := has_next_not_ready s tid hready
  rw [hts] at hhn
  refine ⟨hhn, ?_, ?_⟩
  · exact acquireGo_none s tid
      ((s.task_blocks tid).processing_blocks.length + 1) hhn
  · unfold get_ready_tasks
    have hstep : ∀ acc, grtStep s acc (tid, TaskState.init) = acc := by
      intro acc
      cases acc <;> simp [grtStep, TaskState.init]
    have hgs : grtStep
        { s with task_states := s.task_states ++ [(tid, TaskState.init)] } =
        grtStep s := rfl
    rw [show ({ s with
        task_states := s.task_states ++ [(tid, TaskState.init)] } :
        Scheduler).task_states = s.task_states ++ [(tid, TaskState.init)]
      from rfl]
    rw [List.foldl_append]
    simp only [List.foldl_cons, List.foldl_nil, hstep, hgs]

/-- Witness for `C10_unknown_task`: the empty scheduler and task id 2. -/
theorem C10_unknown_task_witness :
    has_next sMin 2 =
      .ok ({ sMin with task_states := sMin.task_states ++ [(2, TaskState.init)] },
        false) ∧
    acquire_block sMin 2 =
      .ok ({ sMin with task_states := sMin.task_states ++ [(2, TaskState.init)] },
        none) ∧
    get_ready_tasks
        { sMin with task_states := sMin.task_states ++ [(2, TaskState.init)] } =
      get_ready_tasks sMin :=
  C10_unknown_task sMin 2 rfl

end Daisy
